import Mathlib

/-!
Verification of the resource-policy-evaluation-library against its design
specification.

This file embeds the relevant parts of the repository in Lean 4:

* `rpe/extractors/gcp_auditlogs.py` (`GCPAuditLog.is_audit_log`,
  `get_metadata`, `get_operation_type`, `get_resources`, `extract`),
* `rpe/engines/python.py` (`PythonPolicyEngine.evaluate`,
  `PythonPolicyEngine.remediate`, `_legacy_eval`),
* the resource identity layer (`rpe/resources/gcp.py` is not part of the
  provided sources; it is modelled from the design spec where needed).

Python values flowing through the extractor are modelled by the `Json`
inductive, Python exceptions by `Except` with an explicit error type, and
Python truthiness (`or` / `and` / `if`) by explicit helpers, so that each
Lean definition can be diffed line by line against the Python it embeds.
-/

/-- A JSON-like Python value, as produced by `json.loads` on a log envelope.
`null` doubles as Python `None` (which is what `jmespath.search` and
`dict.get` return for a missing field). -/
inductive Json where
  | null
  | bool (b : Bool)
  | num (n : Int)
  | str (s : String)
  | arr (items : List Json)
  | obj (fields : List (String × Json))

/-- Python truthiness of a JSON value (`bool(x)`). -/
def truthy : Json → Bool
  | .null => false
  | .bool b => b
  | .num n => n != 0
  | .str s => s != ""
  | .arr l => !l.isEmpty
  | .obj l => !l.isEmpty

/-- Python `a or b`: `a` if `a` is truthy, else `b`. -/
def pyOr (a b : Json) : Json := if truthy a then a else b

/-- Python `a and b`: `b` if `a` is truthy, else `a`. -/
def pyAnd (a b : Json) : Json := if truthy a then b else a

/-- Is this value the string `s`? Models Python `x == "s"`. -/
def Json.isStr : Json → String → Bool
  | .str t, s => t == s
  | _, _ => false

/-- Is this value `None`? Models Python `x is None`. -/
def Json.isNull : Json → Bool
  | .null => true
  | _ => false

/-- Field lookup on a JSON object; `null` when the key is missing or the
value is not an object.  One step of `jmespath.search`. -/
def Json.get (j : Json) (key : String) : Json :=
  match j with
  | .obj fields =>
    match fields.lookup key with
    | some v => v
    | none => .null
  | _ => .null

/-- `jmespath.search "a.b.c"` on simple dotted paths: nested field lookup,
returning `null` (Python `None`) when any step is missing. -/
def jsearch (j : Json) (path : List String) : Json :=
  path.foldl Json.get j

/-- Python exceptions that the embedded code can raise. -/
inductive PyErr where
  | attributeError
  | typeError
  | valueError
  | keyError (key : String)
  | indexError
  | validationError
deriving DecidableEq, Repr

/-- Errors raised by `GCPAuditLog.extract`: either the
`ExtractorException("Not an audit log")` raised by `extract` itself (the
spec's `NotAnAuditLogError`), or an ordinary Python exception escaping from
the metadata / resource stages. -/
inductive ExtractErr where
  | notAnAuditLog
  | py (e : PyErr)
deriving DecidableEq, Repr

/-- Split a character list at a separator character.  Python
`str.split(sep)` for the single-character separators the extractor uses
(`.`, `/`, `:`); always returns at least one (possibly empty) group.
Implemented by structural recursion so concrete inputs evaluate. -/
def splitChOn (sep : Char) : List Char → List (List Char)
  | [] => [[]]
  | c :: cs =>
    match splitChOn sep cs with
    | [] => [[]]
    | g :: gs => if c = sep then [] :: g :: gs else (c :: g) :: gs

/-- Python `s.startswith(p)`. -/
def pyStartsWith (s p : String) : Bool :=
  p.data.isPrefixOf s.data

/-- Python `s.lower()` (ASCII, which is all the extractor compares). -/
def toLowerStr (s : String) : String :=
  ⟨s.data.map Char.toLower⟩

/-- Last `sep`-separated segment of a string: Python `s.split(sep)[-1]`
(`split` always returns a non-empty list, so this never raises). -/
def pyLastSeg (s : String) (sep : Char) : String :=
  ⟨(splitChOn sep s.data).getLastD []⟩

/-- Python `value.split(sep)[-1]` on a JSON value: `AttributeError` when the
value is not a string (in particular when it is `None`). -/
def pySplitLast (j : Json) (sep : Char) : Except PyErr String :=
  match j with
  | .str s => .ok (pyLastSeg s sep)
  | _ => .error .attributeError

/-- Python `value.split(sep)` on a JSON value. -/
def pySplit (j : Json) (sep : Char) : Except PyErr (List String) :=
  match j with
  | .str s => .ok ((splitChOn sep s.data).map (fun g => (⟨g⟩ : String)))
  | _ => .error .attributeError

/-- Python `value.startswith(tuple_of_prefixes)` on a JSON value:
`AttributeError` when the value is not a string. -/
def pyStartsWithAny (j : Json) (ps : List String) : Except PyErr Bool :=
  match j with
  | .str s => .ok (ps.any (fun p => pyStartsWith s p))
  | _ => .error .attributeError

/-- Substring occurrence in a character list (Python `sub in s`). -/
def containsCh (sub : List Char) : List Char → Bool
  | [] => sub.isEmpty
  | c :: cs => sub.isPrefixOf (c :: cs) || containsCh sub cs

/-- Substring containment on strings (Python `sub in s`). -/
def containsSub (s sub : String) : Bool :=
  containsCh sub.data s.data

/-- Python `sub in value`: `TypeError` when the value is not a string
(e.g. `"x" in None`). -/
def pyIn (sub : String) (j : Json) : Except PyErr Bool :=
  match j with
  | .str s => .ok (containsSub s sub)
  | _ => .error .typeError

/-- Python `sub in value.lower()`: `AttributeError` when the value is not a
string. -/
def pyInLower (sub : String) (j : Json) : Except PyErr Bool :=
  match j with
  | .str s => .ok (containsSub (toLowerStr s) sub)
  | _ => .error .attributeError

/-- Python `xs[i]` on a list of strings: `IndexError` when out of range. -/
def pyIdx (l : List String) (i : Nat) : Except PyErr String :=
  match l.get? i with
  | some v => .ok v
  | none => .error .indexError

/-- Python `value[0]` on a JSON value: first element of a list, first
character of a string, `IndexError` when empty, `TypeError` otherwise
(in particular for `None[0]`). -/
def pyIndex0 (j : Json) : Except PyErr Json :=
  match j with
  | .arr (x :: _) => .ok x
  | .arr [] => .error .indexError
  | .str s => if s.data.isEmpty then .error .indexError else .ok (.str ⟨s.data.take 1⟩)
  | _ => .error .typeError

/-- Python `d.get(key, default)`: `AttributeError` when `d` is not a dict. -/
def pyDictGetD (j : Json) (k : String) (d : Json) : Except PyErr Json :=
  match j with
  | .obj fs =>
    .ok (match fs.lookup k with
         | some v => v
         | none => d)
  | _ => .error .attributeError

/-- Short-circuit `a and m` where `a` is already a boolean and `m` may
raise: `m` is evaluated only when `a` is true. -/
def pAndE (a : Bool) (m : Except PyErr Bool) : Except PyErr Bool :=
  if a then m else .ok false

/-- Short-circuit `a or b` over possibly-raising boolean tests. -/
def pOrE (a b : Except PyErr Bool) : Except PyErr Bool := do
  if (← a) then return true else b

/-- Python `x is True`. -/
def pyIsTrue : Json → Bool
  | .bool true => true
  | _ => false

/-! ## `GCPAuditLog.get_operation_type` (gcp_auditlogs.py lines 105-144) -/

/-- The four prefix tuples of `get_operation_type`, in source order. -/
def read_prefixes : List String := ["get", "list"]

def update_prefixes : List String :=
  ["update", "patch", "set", "debug", "enable", "disable", "expand",
   "deactivate", "activate", "switch"]

def create_prefixes : List String := ["create", "insert"]

def delete_prefixes : List String := ["delete"]

/-- The classified segment: last dot-separated segment of the method name,
lower-cased, with a leading `batch` token stripped (lines 107-110). -/
def methodSegment (method_name : String) : String :=
  let seg0 := toLowerStr (pyLastSeg method_name '.')
  if pyStartsWith seg0 "batch" then (⟨seg0.data.drop 5⟩ : String) else seg0

/-- `GCPAuditLog.get_operation_type` on a method-name string: prefix tests
against the classified segment, in source order. -/
def get_operation_type (method_name : String) : Option String :=
  let seg := methodSegment method_name
  if read_prefixes.any (fun p => pyStartsWith seg p) then some "read"
  else if update_prefixes.any (fun p => pyStartsWith seg p) then some "update"
  else if create_prefixes.any (fun p => pyStartsWith seg p) then some "create"
  else if delete_prefixes.any (fun p => pyStartsWith seg p) then some "delete"
  else none

/-- `get_operation_type` applied to the raw `protoPayload.methodName`
value: Python raises `AttributeError` (`None.split` / `5.split`) when the
method name is not a string. -/
def get_operation_typeE (j : Json) : Except PyErr (Option String) :=
  match j with
  | .str s => .ok (get_operation_type s)
  | _ => .error .attributeError

/-- The classifier as the spec words it: an ordered table of
(prefix-set, operation) pairs, first set containing a matching prefix
wins. -/
def opTable : List (List String × String) :=
  [(["get", "list"], "read"),
   (["update", "patch", "set", "debug", "enable", "disable", "expand",
     "deactivate", "activate", "switch"], "update"),
   (["create", "insert"], "create"),
   (["delete"], "delete")]

/-- Spec-side restatement of the classifier, used to check claim C2
against the source definition. -/
def classify_spec (method_name : String) : Option String :=
  let seg := methodSegment method_name
  (opTable.find? (fun e => e.1.any (fun p => pyStartsWith seg p))).map (fun e => e.2)

/-! ## `GCPAuditLog.is_audit_log` and `get_metadata` (gcp_auditlogs.py 66-103) -/

/-- Metadata record built by `get_metadata` (the `GCPAuditLogMetadata`
pydantic model).  The timestamp is kept as the raw string accepted by
`dateutil.parser.parse`; the parser's tolerance for concrete formats is
abstracted (every string is treated as parseable, non-strings raise). -/
structure GMetadata where
  id : String
  timestamp : String
  method_name : Option String
  operation : Option String
  principal : Option String
deriving DecidableEq, Repr

/-- `dateutil.parser.parse(value)`: `TypeError` for `None` and other
non-strings; string inputs are treated as parseable (tolerance of the
external parser is abstracted, no claim depends on a malformed string). -/
def dtParse : Json → Except PyErr String
  | .str s => .ok s
  | _ => .error .typeError

/-- Pydantic validation of a `str` field: `None` or non-strings raise. -/
def pydanticStr : Json → Except PyErr String
  | .str s => .ok s
  | _ => .error .validationError

/-- Pydantic validation of an `Optional[str]` field. -/
def pydanticOptStr : Json → Except PyErr (Option String)
  | .null => .ok none
  | .str s => .ok (some s)
  | _ => .error .validationError

/-- `GCPAuditLog.is_audit_log`: the payload's `@type` must equal the audit
protocol type and the last `/`-segment of `logName` (default `""`) must
start with `cloudaudit.googleapis.com`.  Both list elements of the Python
`all([...])` are evaluated, so a non-string `logName` raises. -/
def is_audit_logE (msg : Json) : Except PyErr Bool := do
  let log_type := jsearch msg ["protoPayload", "@type"]
  let log_name ← pyDictGetD msg "logName" (.str "")
  let lastSeg ← pySplitLast log_name '/'
  return log_type.isStr "type.googleapis.com/google.cloud.audit.AuditLog"
    && pyStartsWith lastSeg "cloudaudit.googleapis.com"

/-- `GCPAuditLog.get_metadata`: source order is methodName lookup, insertId
lookup, timestamp lookup, `dateutil.parser.parse`, principal lookup,
`get_operation_type`, then pydantic validation of the model fields. -/
def get_metadata (msg : Json) : Except PyErr GMetadata := do
  let method_name := jsearch msg ["protoPayload", "methodName"]
  let insert_id ← pyDictGetD msg "insertId" .null
  let log_timestamp ← pyDictGetD msg "timestamp" .null
  let timestamp ← dtParse log_timestamp
  let principal_email := jsearch msg ["protoPayload", "authenticationInfo", "principalEmail"]
  let operation ← get_operation_typeE method_name
  let idStr ← pydanticStr insert_id
  let mns ← pydanticOptStr method_name
  let pr ← pydanticOptStr principal_email
  return ⟨idStr, timestamp, mns, operation, pr⟩

/-! ## `GCPAuditLog.get_resources` (gcp_auditlogs.py 146-446)

Each extracted resource is the `resource_data` dict passed to
`GoogleAPIResource.from_resource_data`, modelled as an association list in
the construction order of the Python dict literal. -/

abbrev ResourceData := List (String × Json)

/-- Read a key out of a `resource_data` dict. -/
def rget (rd : ResourceData) (k : String) : Json :=
  match rd.lookup k with
  | some v => v
  | none => .null

/-- Python dict assignment `rd[k] = v`: replaces in place when the key
exists (keeping its position), appends otherwise. -/
def setKey (rd : ResourceData) (k : String) (v : Json) : ResourceData :=
  if rd.any (fun p => p.1 == k) then
    rd.map (fun p => if p.1 == k then (k, v) else p)
  else rd ++ [(k, v)]

/-- Elements of a JSON list (for Python `for x in xs` over values the
fixtures make lists; `None` iterates as empty via the `or []` guards at the
call sites). -/
def pyList : Json → List Json
  | .arr items => items
  | _ => []

/-- Disk-name expression from the `gce_instance` branch (line 325):
`disk_name or (boot and instance_name) or device_name`. -/
def diskNamePy (instance_name : String) (disk : Json) : Json :=
  pyOr (jsearch disk ["initializeParams", "diskName"])
    (pyOr (pyAnd (jsearch disk ["boot"]) (Json.str instance_name))
          (jsearch disk ["deviceName"]))

/-- `resource_data` for the `gce_instance` resource itself (lines 297-302). -/
def gceInstanceRD (msg : Json) (instance_name : String) : ResourceData :=
  [("resource_type", Json.str "compute.googleapis.com/Instance"),
   ("name", Json.str instance_name),
   ("location", jsearch msg ["resource", "labels", "zone"]),
   ("project_id", jsearch msg ["resource", "labels", "project_id"])]

/-- `resource_data` for one attached disk (lines 327-332). -/
def gceDiskRD (msg : Json) (instance_name : String) (disk : Json) : ResourceData :=
  [("resource_type", Json.str "compute.googleapis.com/Disk"),
   ("name", diskNamePy instance_name disk),
   ("location", jsearch msg ["resource", "labels", "zone"]),
   ("project_id", jsearch msg ["resource", "labels", "project_id"])]

/-- `resource_data` for the `cloudsql_database` branch (lines 169-179);
`dbLast` is `resource.labels.database_id.split(":")[-1]`. -/
def cloudsqlRD (msg : Json) (dbLast : String) : ResourceData :=
  [("resource_type", Json.str "sqladmin.googleapis.com/Instance"),
   ("name", pyOr (Json.str dbLast)
      (pyOr (jsearch msg ["protoPayload", "request", "body", "name"])
            (jsearch msg ["protoPayload", "request", "resource", "instanceName", "instanceId"]))),
   ("location", jsearch msg ["resource", "labels", "region"]),
   ("project_id", jsearch msg ["resource", "labels", "project_id"])]

/-! `GCPAuditLog.get_resources` is the `if/elif` chain of gcp_auditlogs.py
lines 146-446.  Each `elif` arm is embedded as its own definition that
either handles its branch or delegates to the next arm, preserving source
order and Python short-circuit evaluation of the conditions; `msg` is the
envelope, `res_type` is `resource.type`, `mn` is `protoPayload.methodName`. -/

/-- Branch: `audited_resource` for `dataform.googleapis.com` (lines
428-444), the final `elif`; falls through to the implicit `return
resources` (empty) of the chain. -/
def grDataform (msg res_type mn : Json) : Except PyErr (List ResourceData) := do
  let _ := mn
  if (jsearch msg ["resource", "labels", "service"]).isStr "dataform.googleapis.com"
      && res_type.isStr "audited_resource" then
    let bits ← pySplit (jsearch msg ["protoPayload", "resourceName"]) '/'
    let pid ← pyIdx bits 1
    let loc ← pyIdx bits 3
    let base : ResourceData :=
      [("name", Json.str (bits.getLastD "")),
       ("project_id", Json.str pid),
       ("location", Json.str loc)]
    if bits.length == 6 && bits.get? 4 == some "repositories" then
      return [base ++ [("resource_type", Json.str "dataform.googleapis.com/Repository")]]
    else if bits.length == 8 && bits.get? 6 == some "workspaces" then
      let repo ← pyIdx bits 5
      return [base ++ [("resource_type", Json.str "dataform.googleapis.com/Workspace"),
                       ("repository", Json.str repo)]]
    else
      return []
  else
    return []

/-- Branch: `audited_resource` for `datafusion.googleapis.com` (415-426). -/
def grDatafusion (msg res_type mn : Json) : Except PyErr (List ResourceData) := do
  if (jsearch msg ["resource", "labels", "service"]).isStr "datafusion.googleapis.com"
      && res_type.isStr "audited_resource" then
    let bits ← pySplit (jsearch msg ["protoPayload", "resourceName"]) '/'
    let nm ← pyIdx bits 5
    let pid ← pyIdx bits 1
    let loc ← pyIdx bits 3
    return [[("name", Json.str nm),
             ("project_id", Json.str pid),
             ("location", Json.str loc),
             ("resource_type", Json.str "datafusion.googleapis.com/Instance")]]
  else
    grDataform msg res_type mn

/-- Branch: `audited_resource` with `CloudRedis` in the method (405-413). -/
def grCloudRedis (msg res_type mn : Json) : Except PyErr (List ResourceData) := do
  if (← pAndE (res_type.isStr "audited_resource") (pyIn "CloudRedis" mn)) then
    let nm ← pySplitLast (jsearch msg ["protoPayload", "resourceName"]) '/'
    let loc ← pyIndex0 (jsearch msg ["protoPayload", "resourceLocation", "currentLocations"])
    return [[("name", Json.str nm),
             ("project_id", jsearch msg ["resource", "labels", "project_id"]),
             ("location", loc),
             ("resource_type", Json.str "redis.googleapis.com/Instance")]]
  else
    grDatafusion msg res_type mn

/-- Branch: `dataflow_step` with `create` in the method (394-403). -/
def grDataflow (msg res_type mn : Json) : Except PyErr (List ResourceData) := do
  if (← pAndE (res_type.isStr "dataflow_step") (pyIn "create" mn)) then
    return [[("name", jsearch msg ["protoPayload", "request", "job_id"]),
             ("project_id", jsearch msg ["resource", "labels", "project_id"]),
             ("location", jsearch msg ["resource", "labels", "region"]),
             ("resource_type", Json.str "dataflow.googleapis.com/Job")]]
  else
    grCloudRedis msg res_type mn

/-- Branch: `audited_resource` with `BigtableInstanceAdmin` (385-392). -/
def grBigtable (msg res_type mn : Json) : Except PyErr (List ResourceData) := do
  if (← pAndE (res_type.isStr "audited_resource") (pyIn "BigtableInstanceAdmin" mn)) then
    let nm ← pySplitLast (jsearch msg ["protoPayload", "resourceName"]) '/'
    return [[("name", Json.str nm),
             ("project_id", jsearch msg ["resource", "labels", "project_id"]),
             ("resource_type", Json.str "bigtableadmin.googleapis.com/Instance")]]
  else
    grDataflow msg res_type mn

/-- Branch: `gke_nodepool` (375-383). -/
def grGkeNodepool (msg res_type mn : Json) : Except PyErr (List ResourceData) := do
  if res_type.isStr "gke_nodepool" then
    return [[("resource_type", Json.str "container.googleapis.com/NodePool"),
             ("cluster", jsearch msg ["resource", "labels", "cluster_name"]),
             ("name", jsearch msg ["resource", "labels", "nodepool_name"]),
             ("project_id", jsearch msg ["resource", "labels", "project_id"]),
             ("location", jsearch msg ["resource", "labels", "location"])]]
  else
    grBigtable msg res_type mn

/-- Branch: `gke_cluster`, plus node pools on creation (355-373). -/
def grGkeCluster (msg res_type mn : Json) : Except PyErr (List ResourceData) := do
  if res_type.isStr "gke_cluster" then
    let clusterRD : ResourceData :=
      [("resource_type", Json.str "container.googleapis.com/Cluster"),
       ("name", jsearch msg ["resource", "labels", "cluster_name"]),
       ("project_id", jsearch msg ["resource", "labels", "project_id"]),
       ("location", jsearch msg ["resource", "labels", "location"])]
    let hasCreate ← pyInLower "create" mn
    if hasCreate && !(jsearch msg ["protoPayload", "request", "cluster", "nodePools"]).isNull then
      let rd2 := setKey (setKey clusterRD "resource_type"
                   (Json.str "container.googleapis.com/NodePool"))
                   "cluster" (jsearch msg ["resource", "labels", "cluster_name"])
      let poolRDs ← (pyList (jsearch msg ["protoPayload", "request", "cluster", "nodePools"])).mapM
        (fun pool => do
          let pname ← pyDictGetD pool "name" Json.null
          return setKey rd2 "name" pname)
      return clusterRD :: poolRDs
    else
      return [clusterRD]
  else
    grGkeNodepool msg res_type mn

/-- Branch: `cloud_dataproc_cluster` (346-353). -/
def grDataprocCluster (msg res_type mn : Json) : Except PyErr (List ResourceData) := do
  if res_type.isStr "cloud_dataproc_cluster" then
    return [[("resource_type", Json.str "dataproc.googleapis.com/Cluster"),
             ("project_id", jsearch msg ["resource", "labels", "project_id"]),
             ("name", jsearch msg ["resource", "labels", "cluster_name"]),
             ("location", jsearch msg ["resource", "labels", "region"])]]
  else
    grGkeCluster msg res_type mn

/-- Branch: `cloud_function` (336-344). -/
def grCloudFunction (msg res_type mn : Json) : Except PyErr (List ResourceData) := do
  if res_type.isStr "cloud_function" then
    return [[("name", jsearch msg ["resource", "labels", "function_name"]),
             ("project_id", jsearch msg ["resource", "labels", "project_id"]),
             ("location", jsearch msg ["resource", "labels", "region"]),
             ("resource_type", Json.str "cloudfunctions.googleapis.com/CloudFunction")]]
  else
    grDataprocCluster msg res_type mn

/-- Branch: `gce_instance` with the reserved-prefix short-circuit and the
attached-disk sub-rule (294-334). -/
def grGceInstance (msg res_type mn : Json) : Except PyErr (List ResourceData) := do
  if res_type.isStr "gce_instance" then
    let instance_name ← pySplitLast (jsearch msg ["protoPayload", "resourceName"]) '/'
    if pyStartsWith instance_name "aef-" || pyStartsWith instance_name "aet-" then
      return []
    let disks := pyList (jsearch msg ["protoPayload", "request", "disks"])
    return gceInstanceRD msg instance_name
           :: disks.map (fun disk => gceDiskRD msg instance_name disk)
  else
    grCloudFunction msg res_type mn

/-- Branch: `gae_app` with `DebugInstance` in the method (283-292). -/
def grGaeApp (msg res_type mn : Json) : Except PyErr (List ResourceData) := do
  if (← pAndE (res_type.isStr "gae_app") (pyIn "DebugInstance" mn)) then
    let bits ← pySplit (jsearch msg ["protoPayload", "resourceName"]) '/'
    let app ← pyIdx bits 1
    let service ← pyIdx bits 3
    let version ← pyIdx bits 5
    return [[("resource_type", Json.str "appengine.googleapis.com/Instance"),
             ("name", Json.str (bits.getLastD "")),
             ("app", Json.str app),
             ("service", Json.str service),
             ("version", Json.str version)]]
  else
    grGceInstance msg res_type mn

/-- Branch: `gce_firewall_rule` (275-281). -/
def grGceFirewall (msg res_type mn : Json) : Except PyErr (List ResourceData) := do
  if res_type.isStr "gce_firewall_rule" then
    let nm ← pySplitLast (jsearch msg ["protoPayload", "resourceName"]) '/'
    return [[("resource_type", Json.str "compute.googleapis.com/Firewall"),
             ("name", Json.str nm),
             ("project_id", jsearch msg ["resource", "labels", "project_id"])]]
  else
    grGaeApp msg res_type mn

/-- Branch: `gce_subnetwork` (266-273). -/
def grGceSubnetwork (msg res_type mn : Json) : Except PyErr (List ResourceData) := do
  if res_type.isStr "gce_subnetwork" then
    return [[("resource_type", Json.str "compute.googleapis.com/Subnetwork"),
             ("name", jsearch msg ["resource", "labels", "subnetwork_name"]),
             ("project_id", jsearch msg ["resource", "labels", "project_id"]),
             ("location", jsearch msg ["resource", "labels", "location"])]]
  else
    grGceFirewall msg res_type mn

/-- Branch: `gce_network` (258-264). -/
def grGceNetwork (msg res_type mn : Json) : Except PyErr (List ResourceData) := do
  if res_type.isStr "gce_network" then
    let nm ← pySplitLast (jsearch msg ["protoPayload", "resourceName"]) '/'
    return [[("resource_type", Json.str "compute.googleapis.com/Network"),
             ("name", Json.str nm),
             ("project_id", jsearch msg ["resource", "labels", "project_id"])]]
  else
    grGceSubnetwork msg res_type mn

/-- Branch: `audited_resource` with `DeactivateServices` (250-256);
unreachable in practice because `ctivateService` in the earlier service
branch also matches, but embedded in source order regardless. -/
def grDeactivateServices (msg res_type mn : Json) : Except PyErr (List ResourceData) := do
  if (← pAndE (res_type.isStr "audited_resource") (pyIn "DeactivateServices" mn)) then
    return [[("resource_type", Json.str "serviceusage.googleapis.com/Service"),
             ("name", jsearch msg ["resource", "labels", "service"]),
             ("project_id", jsearch msg ["resource", "labels", "project_id"])]]
  else
    grGceNetwork msg res_type mn

/-- Branch: `audited_resource` service (de)activation, possibly batch
(226-248). -/
def grServiceUsage (msg res_type mn : Json) : Except PyErr (List ResourceData) := do
  if (← pAndE (res_type.isStr "audited_resource")
        (pOrE (pyIn "EnableService" mn)
          (pOrE (pyIn "DisableService" mn) (pyIn "ctivateService" mn)))) then
    let base : ResourceData :=
      [("resource_type", Json.str "serviceusage.googleapis.com/Service"),
       ("project_id", jsearch msg ["resource", "labels", "project_id"])]
    let services := pyOr (jsearch msg ["protoPayload", "request", "serviceIds"])
                         (jsearch msg ["protoPayload", "request", "serviceNames"])
    if truthy services then
      return (pyList services).map (fun s => setKey base "name" s)
    else
      let nm ← pySplitLast (jsearch msg ["protoPayload", "resourceName"]) '/'
      return [setKey base "name" (Json.str nm)]
  else
    grDeactivateServices msg res_type mn

/-- Branch: `pubsub_topic` IAM change (218-224). -/
def grPubsubTopic (msg res_type mn : Json) : Except PyErr (List ResourceData) := do
  if (← pAndE (res_type.isStr "pubsub_topic") (pyIn "etIamPolicy" mn)) then
    let nm ← pySplitLast (jsearch msg ["resource", "labels", "topic_id"]) '/'
    return [[("resource_type", Json.str "pubsub.googleapis.com/Topic"),
             ("name", Json.str nm),
             ("project_id", jsearch msg ["resource", "labels", "project_id"])]]
  else
    grServiceUsage msg res_type mn

/-- Branch: `pubsub_subscription` IAM change (210-216). -/
def grPubsubSubscription (msg res_type mn : Json) : Except PyErr (List ResourceData) := do
  if (← pAndE (res_type.isStr "pubsub_subscription") (pyIn "etIamPolicy" mn)) then
    let nm ← pySplitLast (jsearch msg ["resource", "labels", "subscription_id"]) '/'
    return [[("resource_type", Json.str "pubsub.googleapis.com/Subscription"),
             ("name", Json.str nm),
             ("project_id", jsearch msg ["resource", "labels", "project_id"])]]
  else
    grPubsubTopic msg res_type mn

/-- Branch: `project` IAM change (202-208). -/
def grProject (msg res_type mn : Json) : Except PyErr (List ResourceData) := do
  if (← pAndE (res_type.isStr "project") (pyIn "etIamPolicy" mn)) then
    return [[("resource_type", Json.str "cloudresourcemanager.googleapis.com/Project"),
             ("name", jsearch msg ["resource", "labels", "project_id"]),
             ("project_id", jsearch msg ["resource", "labels", "project_id"])]]
  else
    grPubsubSubscription msg res_type mn

/-- Branch: `bigquery_dataset` (193-200); the inner `if` has no `else`, so
a non-matching method falls out of the whole chain with no resources. -/
def grBigqueryDataset (msg res_type mn : Json) : Except PyErr (List ResourceData) := do
  if res_type.isStr "bigquery_dataset" then
    if (← pOrE (pyIn "DatasetService" mn) (pyIn "etIamPolicy" mn)) then
      return [[("resource_type", Json.str "bigquery.googleapis.com/Dataset"),
               ("name", jsearch msg ["resource", "labels", "dataset_id"]),
               ("project_id", jsearch msg ["resource", "labels", "project_id"])]]
    else
      return []
  else
    grProject msg res_type mn

/-- Branch: `gcs_bucket` (182-191). -/
def grGcsBucket (msg res_type mn : Json) : Except PyErr (List ResourceData) := do
  if (← pAndE (res_type.isStr "gcs_bucket")
        (pyStartsWithAny mn ["storage.buckets", "storage.setIamPermissions"])) then
    return [[("resource_type", Json.str "storage.googleapis.com/Bucket"),
             ("name", jsearch msg ["resource", "labels", "bucket_name"]),
             ("location", jsearch msg ["resource", "labels", "location"]),
             ("project_id", jsearch msg ["resource", "labels", "project_id"])]]
  else
    grBigqueryDataset msg res_type mn

/-- Branch: `cloudsql_database` (166-180), the first arm of the chain. -/
def grCloudsql (msg res_type mn : Json) : Except PyErr (List ResourceData) := do
  if (← pAndE (res_type.isStr "cloudsql_database")
        (pyStartsWithAny mn ["cloudsql.instances"])) then
    let dbLast ← pySplitLast (jsearch msg ["resource", "labels", "database_id"]) ':'
    return [cloudsqlRD msg dbLast]
  else
    grGcsBucket msg res_type mn

/-- `GCPAuditLog.get_resources` (146-446): short-circuit on a missing
`resource.type`, otherwise dispatch down the `elif` chain. -/
def get_resources (msg : Json) : Except PyErr (List ResourceData) :=
  let res_type := jsearch msg ["resource", "type"]
  if res_type.isNull then .ok []
  else grCloudsql msg res_type (jsearch msg ["protoPayload", "methodName"])

/-! ## `GCPAuditLog.extract` (gcp_auditlogs.py 46-64) -/

/-- Result of `GCPAuditLog.extract` (the `ExtractedResources` model). -/
structure Extracted where
  resources : List ResourceData
  metadata : GMetadata

/-- `GCPAuditLog.extract` on an already-parsed dict: validate the envelope
(raising the not-an-audit-log error when validation returns false), then
derive metadata, then resolve resources.  Exceptions escaping the inner
stages surface as `.py` errors, distinct from `.notAnAuditLog`. -/
def extract (msg : Json) : Except ExtractErr Extracted :=
  match is_audit_logE msg with
  | .error e => .error (.py e)
  | .ok b =>
    if !b then .error .notAnAuditLog
    else
      match get_metadata msg with
      | .error e => .error (.py e)
      | .ok md =>
        match get_resources msg with
        | .error e => .error (.py e)
        | .ok rs => .ok ⟨rs, md⟩

/-! ## `PythonPolicyEngine` (engines/python.py)

A policy class is modelled by the attributes `PythonPolicyEngine` reads off
it: `applies_to` plus the optional callables; `none` models a missing
attribute (`hasattr` false / `AttributeError` on call).  Policy functions
may raise (`Except`), and `evaluate` may return a non-`EvaluationResult`
value (`notAResult`), which the engine turns into a caught `ValueError`. -/

/-- The resource handed to policy code; `rtype` is `resource.type()`. -/
structure PyResource where
  rtype : String
deriving DecidableEq, Repr

/-- The `EvaluationResult` dataclass (policy.py 28-41). -/
structure EvalResultRec where
  compliant : Bool
  remediable : Bool
  policy_attributes : List (String × Json)
  evaluation_attributes : List (String × Json)

/-- What a policy's `evaluate` returns when it does not raise: an
`EvaluationResult`, or some other value (which fails the `isinstance`
check in the engine). -/
inductive EvalReturn where
  | result (er : EvalResultRec)
  | notAResult

/-- A loaded policy class, as seen by `PythonPolicyEngine`. -/
structure PolicyCls where
  applies_to : List String
  should_evaluate_policy : Option (PyResource → Except PyErr Json)
  evaluate : Option (PyResource → Except PyErr EvalReturn)
  compliant : Option (PyResource → Except PyErr Json)
  excluded : Option (PyResource → Except PyErr Json)
  remediate : Option (PyResource → Except PyErr Unit)

/-- The `Evaluation` dataclass as built by the engine (policy.py 44-57 plus
the trigger fields). -/
structure EvaluationRec where
  resource : PyResource
  policy_id : String
  compliant : Bool
  remediable : Bool
  policy_attributes : List (String × Json)
  evaluation_attributes : List (String × Json)

/-- The body of the per-policy `try` block in `PythonPolicyEngine.evaluate`
(python.py 85-113), including `_legacy_eval` (121-135): `.ok none` is the
silent skip when `should_evaluate_policy` returns a falsy value, `.error`
is an exception escaping policy code (or the engine's own `ValueError` for
a bad `evaluate` return, or the `AttributeError` from a legacy policy
missing `compliant`/`excluded`). -/
def evalPolicy (r : PyResource) (policy_name : String) (cls : PolicyCls) :
    Except PyErr (Option EvaluationRec) := do
  let skip ← match cls.should_evaluate_policy with
    | some f => do
        let v ← f r
        pure !(truthy v)
    | none => pure false
  if skip then
    return none
  match cls.evaluate with
  | some f =>
    match (← f r) with
    | .result er =>
      return some ⟨r, policy_name, er.compliant, er.remediable,
                   er.policy_attributes, er.evaluation_attributes⟩
    | .notAResult => throw .valueError
  | none =>
    match cls.compliant with
    | none => throw .attributeError
    | some fc =>
      let cv ← fc r
      match cls.excluded with
      | none => throw .attributeError
      | some fe =>
        let ev ← fe r
        return some ⟨r, policy_name, pyIsTrue cv, cls.remediate.isSome,
                     [], [("excluded", Json.bool (pyIsTrue ev))]⟩

/-- `PythonPolicyEngine.evaluate` (python.py 72-119): filter the discovered
policies by `applies_to`, then run each matched policy inside its own
exception boundary, dropping the contribution of any policy whose code
raises.  Total by construction: no policy exception escapes. -/
def engineEvaluate (policies : List (String × PolicyCls)) (r : PyResource) :
    List EvaluationRec :=
  (policies.filter (fun p => p.2.applies_to.contains r.rtype)).filterMap
    (fun p =>
      match evalPolicy r p.1 p.2 with
      | .ok (some e) => some e
      | _ => none)

/-- The contribution of a single discovered policy to
`PythonPolicyEngine.evaluate`: one `Evaluation` when it applies and its
protocol completes, nothing otherwise. -/
def policyContribution (r : PyResource) (policy_name : String) (cls : PolicyCls) :
    List EvaluationRec :=
  if cls.applies_to.contains r.rtype then
    match evalPolicy r policy_name cls with
    | .ok (some e) => [e]
    | _ => []
  else []

/-- `PythonPolicyEngine.remediate` (python.py 137-139): an unknown id makes
the dict subscript `self._policies[policy_id]` raise (`KeyError`, the
spec's `UnknownPolicyError`); otherwise the policy's `remediate` runs and
whatever it raises propagates unsuppressed. -/
def engineRemediate (policies : List (String × PolicyCls)) (r : PyResource)
    (policy_id : String) : Except PyErr Unit :=
  match policies.lookup policy_id with
  | none => .error (.keyError policy_id)
  | some cls =>
    match cls.remediate with
    | none => .error .attributeError
    | some f => f r

/-! ## Resource identity layer (spec-modelled)

`rpe/resources/gcp.py` is not among the provided sources; only its tests
(`test_resources_cai.py`, `test_gcp_resource_inferred_data.py`) are.  The
definitions below are modelled from the design spec: section 4.1
(`fromAssetName` parses a slash-delimited hierarchical name according to
the type's path template and delegates to `construct`;
`fullyQualifiedName()` is pure; `data()` is a lazy memoized fetch whose
failures degrade to an empty mapping), with path templates read off the
asset-inventory fixtures in `test_resources_cai.py`. -/

/-- Join segments with `/` (inverse of `splitCh`). -/
def joinCh : List (List Char) → List Char
  | [] => []
  | [g] => g
  | g :: g2 :: gs => g ++ '/' :: joinCh (g2 :: gs)

/-- One segment of a type's path template: a fixed literal (such as
`projects`) or an identity field bound by parsing. -/
inductive TSeg where
  | lit (s : String)
  | fieldSeg (name : String)

/-- Modelled from the spec: a resource descriptor, keyed by the canonical
resource-type string, carrying the service host of the fully-qualified
name and the slash-delimited path template. -/
structure CaiDescriptor where
  asset_type : String
  service : String
  template : List TSeg

/-- Match a template against name segments, collecting the field values in
template order; fails when lengths differ or a literal mismatches. -/
def matchTemplate : List TSeg → List (List Char) → Option (List (List Char))
  | [], [] => some []
  | .lit l :: ts, s :: ss =>
    if s = l.data then matchTemplate ts ss else none
  | .fieldSeg _ :: ts, s :: ss => (matchTemplate ts ss).map (fun vs => s :: vs)
  | _, _ => none

/-- Render a template back to segments from bound field values. -/
def renderSegs : List TSeg → List (List Char) → List (List Char)
  | .lit l :: ts, vs => l.data :: renderSegs ts vs
  | .fieldSeg _ :: ts, v :: vs => v :: renderSegs ts vs
  | _, _ => []

/-- Modelled from the spec: a constructed `GoogleAPIResource` identity —
its descriptor plus the identity-field values parsed out of the
asset-inventory name (immutable after construction). -/
structure CaiResource where
  descriptor : CaiDescriptor
  vals : List (List Char)

/-- Failures of `GoogleAPIResource.from_cai_data`, per spec section 7. -/
inductive CaiError where
  | unknownResourceType
  | badName
deriving DecidableEq, Repr

/-- Modelled from the spec: the registry of resource types exercised by
`test_resources_cai.py` (a representative subset, one per path shape). -/
def caiRegistry : List CaiDescriptor :=
  [⟨"appengine.googleapis.com/Instance", "appengine.googleapis.com",
    [.lit "apps", .fieldSeg "app", .lit "services", .fieldSeg "service",
     .lit "versions", .fieldSeg "version", .lit "instances", .fieldSeg "name"]⟩,
   ⟨"bigquery.googleapis.com/Dataset", "bigquery.googleapis.com",
    [.lit "projects", .fieldSeg "project_id", .lit "datasets", .fieldSeg "name"]⟩,
   ⟨"bigtableadmin.googleapis.com/Instance", "bigtable.googleapis.com",
    [.lit "projects", .fieldSeg "project_id", .lit "instances", .fieldSeg "name"]⟩,
   ⟨"cloudfunctions.googleapis.com/CloudFunction", "cloudfunctions.googleapis.com",
    [.lit "projects", .fieldSeg "project_id", .lit "locations", .fieldSeg "location",
     .lit "functions", .fieldSeg "name"]⟩,
   ⟨"compute.googleapis.com/Instance", "compute.googleapis.com",
    [.lit "projects", .fieldSeg "project_id", .lit "zones", .fieldSeg "location",
     .lit "instances", .fieldSeg "name"]⟩,
   ⟨"compute.googleapis.com/Disk", "compute.googleapis.com",
    [.lit "projects", .fieldSeg "project_id", .lit "zones", .fieldSeg "location",
     .lit "disks", .fieldSeg "name"]⟩,
   ⟨"compute.googleapis.com/Firewall", "compute.googleapis.com",
    [.lit "projects", .fieldSeg "project_id", .lit "global", .lit "firewalls",
     .fieldSeg "name"]⟩,
   ⟨"container.googleapis.com/NodePool", "container.googleapis.com",
    [.lit "projects", .fieldSeg "project_id", .lit "locations", .fieldSeg "location",
     .lit "clusters", .fieldSeg "cluster", .lit "nodePools", .fieldSeg "name"]⟩,
   ⟨"storage.googleapis.com/Bucket", "storage.googleapis.com",
    [.fieldSeg "name"]⟩,
   ⟨"cloudresourcemanager.googleapis.com/Project", "cloudresourcemanager.googleapis.com",
    [.lit "projects", .fieldSeg "name"]⟩,
   ⟨"pubsub.googleapis.com/Topic", "pubsub.googleapis.com",
    [.lit "projects", .fieldSeg "project_id", .lit "topics", .fieldSeg "name"]⟩,
   ⟨"sqladmin.googleapis.com/Instance", "cloudsql.googleapis.com",
    [.lit "projects", .fieldSeg "project_id", .lit "instances", .fieldSeg "name"]⟩]

/-- Parse a fully-qualified asset name `//service/seg/seg/...` against one
descriptor. -/
def parseCai (d : CaiDescriptor) (name : String) : Option CaiResource :=
  match splitChOn '/' name.data with
  | [] :: [] :: svc :: rest =>
    if svc = d.service.data then
      (matchTemplate d.template rest).map (fun vs => ⟨d, vs⟩)
    else none
  | _ => none

/-- Modelled from the spec: `GoogleAPIResource.from_cai_data(name, type)` —
look the type up in the registry (`UnknownResourceTypeError` when absent)
and parse the hierarchical name by the type's template. -/
def from_cai_data (name : String) (asset_type : String) : Except CaiError CaiResource :=
  match caiRegistry.find? (fun d => d.asset_type == asset_type) with
  | none => .error .unknownResourceType
  | some d =>
    match parseCai d name with
    | some r => .ok r
    | none => .error .badName

/-- Modelled from the spec: `full_resource_name()` — a pure function of the
identity fields and the descriptor template. -/
def full_resource_name (r : CaiResource) : String :=
  ⟨joinCh ([] :: [] :: r.descriptor.service.data
           :: renderSegs r.descriptor.template r.vals)⟩

/-! ## Lazy remote data (spec-modelled, for `data()` / `to_dict()`) -/

/-- Outcome of the remote fetch behind `data()`: a decoded mapping, an HTTP
error status, or a body that fails JSON decoding. -/
inductive FetchOutcome where
  | success (payload : List (String × Json))
  | httpError (code : Nat)
  | malformedBody

/-- Modelled from the spec: a resource with its memoized remote data
(absent until first access). -/
structure LazyResource where
  identity : CaiResource
  rcache : Option (List (String × Json))

/-- Modelled from the spec: `data()` / `to_dict()` — on first access fetch
once, swallowing any transport or decode error into an empty mapping, and
memoize; later calls return the cache.  Returns the mapping and the
updated resource. -/
def to_dict (r : LazyResource) (remote : FetchOutcome) :
    List (String × Json) × LazyResource :=
  match r.rcache with
  | some m => (m, r)
  | none =>
    let fetched := match remote with
      | .success m => m
      | _ => []
    (fetched, { r with rcache := some fetched })

/-! ## Supporting lemmas -/

theorem ebind_ok {e a b : Type} (x : a) (f : a → Except e b) :
    (Except.ok x : Except e a) >>= f = f x := rfl

theorem ebind_err {e a b : Type} (err : e) (f : a → Except e b) :
    (Except.error err : Except e a) >>= f = Except.error err := rfl

theorem epure {e a : Type} (x : a) : (pure x : Except e a) = Except.ok x := rfl

theorem get_resources_str (msg : Json) (t : String)
    (h : jsearch msg ["resource", "type"] = Json.str t) :
    get_resources msg
      = grCloudsql msg (Json.str t) (jsearch msg ["protoPayload", "methodName"]) := by
  unfold get_resources
  rw [h]
  rfl

theorem grCloudsql_skip (msg res_type mn : Json)
    (h : res_type.isStr "cloudsql_database" = false) :
    grCloudsql msg res_type mn = grGcsBucket msg res_type mn := by
  rw [grCloudsql]
  simp only [h, pAndE, reduceIte, Bool.false_eq_true, ebind_ok]

theorem grGcsBucket_skip (msg res_type mn : Json)
    (h : res_type.isStr "gcs_bucket" = false) :
    grGcsBucket msg res_type mn = grBigqueryDataset msg res_type mn := by
  rw [grGcsBucket]
  simp only [h, pAndE, reduceIte, Bool.false_eq_true, ebind_ok]

theorem grBigqueryDataset_skip (msg res_type mn : Json)
    (h : res_type.isStr "bigquery_dataset" = false) :
    grBigqueryDataset msg res_type mn = grProject msg res_type mn := by
  rw [grBigqueryDataset]
  simp only [h, reduceIte, Bool.false_eq_true]

theorem grProject_skip (msg res_type mn : Json)
    (h : res_type.isStr "project" = false) :
    grProject msg res_type mn = grPubsubSubscription msg res_type mn := by
  rw [grProject]
  simp only [h, pAndE, reduceIte, Bool.false_eq_true, ebind_ok]

theorem grPubsubSubscription_skip (msg res_type mn : Json)
    (h : res_type.isStr "pubsub_subscription" = false) :
    grPubsubSubscription msg res_type mn = grPubsubTopic msg res_type mn := by
  rw [grPubsubSubscription]
  simp only [h, pAndE, reduceIte, Bool.false_eq_true, ebind_ok]

theorem grPubsubTopic_skip (msg res_type mn : Json)
    (h : res_type.isStr "pubsub_topic" = false) :
    grPubsubTopic msg res_type mn = grServiceUsage msg res_type mn := by
  rw [grPubsubTopic]
  simp only [h, pAndE, reduceIte, Bool.false_eq_true, ebind_ok]

theorem grServiceUsage_skip (msg res_type mn : Json)
    (h : res_type.isStr "audited_resource" = false) :
    grServiceUsage msg res_type mn = grDeactivateServices msg res_type mn := by
  rw [grServiceUsage]
  simp only [h, pAndE, reduceIte, Bool.false_eq_true, ebind_ok]

theorem grDeactivateServices_skip (msg res_type mn : Json)
    (h : res_type.isStr "audited_resource" = false) :
    grDeactivateServices msg res_type mn = grGceNetwork msg res_type mn := by
  rw [grDeactivateServices]
  simp only [h, pAndE, reduceIte, Bool.false_eq_true, ebind_ok]

theorem grGceNetwork_skip (msg res_type mn : Json)
    (h : res_type.isStr "gce_network" = false) :
    grGceNetwork msg res_type mn = grGceSubnetwork msg res_type mn := by
  rw [grGceNetwork]
  simp only [h, reduceIte, Bool.false_eq_true]

theorem grGceSubnetwork_skip (msg res_type mn : Json)
    (h : res_type.isStr "gce_subnetwork" = false) :
    grGceSubnetwork msg res_type mn = grGceFirewall msg res_type mn := by
  rw [grGceSubnetwork]
  simp only [h, reduceIte, Bool.false_eq_true]

theorem grGceFirewall_skip (msg res_type mn : Json)
    (h : res_type.isStr "gce_firewall_rule" = false) :
    grGceFirewall msg res_type mn = grGaeApp msg res_type mn := by
  rw [grGceFirewall]
  simp only [h, reduceIte, Bool.false_eq_true]

theorem grGaeApp_skip (msg res_type mn : Json)
    (h : res_type.isStr "gae_app" = false) :
    grGaeApp msg res_type mn = grGceInstance msg res_type mn := by
  rw [grGaeApp]
  simp only [h, pAndE, reduceIte, Bool.false_eq_true, ebind_ok]

theorem gce_chain (msg mn : Json) :
    grCloudsql msg (Json.str "gce_instance") mn
      = grGceInstance msg (Json.str "gce_instance") mn := by
  rw [grCloudsql_skip msg (Json.str "gce_instance") mn rfl,
    grGcsBucket_skip msg (Json.str "gce_instance") mn rfl,
    grBigqueryDataset_skip msg (Json.str "gce_instance") mn rfl,
    grProject_skip msg (Json.str "gce_instance") mn rfl,
    grPubsubSubscription_skip msg (Json.str "gce_instance") mn rfl,
    grPubsubTopic_skip msg (Json.str "gce_instance") mn rfl,
    grServiceUsage_skip msg (Json.str "gce_instance") mn rfl,
    grDeactivateServices_skip msg (Json.str "gce_instance") mn rfl,
    grGceNetwork_skip msg (Json.str "gce_instance") mn rfl,
    grGceSubnetwork_skip msg (Json.str "gce_instance") mn rfl,
    grGceFirewall_skip msg (Json.str "gce_instance") mn rfl,
    grGaeApp_skip msg (Json.str "gce_instance") mn rfl]


theorem claim2_aux (seg : String) :
    (if read_prefixes.any (fun p => pyStartsWith seg p) then some "read"
     else if update_prefixes.any (fun p => pyStartsWith seg p) then some "update"
     else if create_prefixes.any (fun p => pyStartsWith seg p) then some "create"
     else if delete_prefixes.any (fun p => pyStartsWith seg p) then some "delete"
     else none)
    = (opTable.find? (fun e => e.1.any (fun p => pyStartsWith seg p))).map (fun e => e.2) := by
  simp only [opTable, read_prefixes, update_prefixes, create_prefixes, delete_prefixes]
  by_cases h1 : (["get", "list"].any (fun p => pyStartsWith seg p)) = true
  · simp [List.find?_cons_of_pos, h1]
  · rw [List.find?_cons_of_neg _ (by simpa using h1)]
    by_cases h2 : (["update", "patch", "set", "debug", "enable", "disable", "expand",
        "deactivate", "activate", "switch"].any (fun p => pyStartsWith seg p)) = true
    · simp [List.find?_cons_of_pos, h1, h2]
    · rw [List.find?_cons_of_neg _ (by simpa using h2)]
      by_cases h3 : (["create", "insert"].any (fun p => pyStartsWith seg p)) = true
      · simp [List.find?_cons_of_pos, h1, h2, h3]
      · rw [List.find?_cons_of_neg _ (by simpa using h3)]
        by_cases h4 : (["delete"].any (fun p => pyStartsWith seg p)) = true
        · simp [List.find?_cons_of_pos, h1, h2, h3, h4]
        · rw [List.find?_cons_of_neg _ (by simpa using h4)]
          simp [h1, h2, h3, h4]

/-! ## Claims -/

/-- C2: for every method-name string, the operation classifier takes the
last dot-separated segment, lower-cases it, strips a leading `batch` token,
and then tests prefix membership against the four fixed prefix sets in
order read, update, create, delete, returning the operation of the first
set containing a matching prefix and `none` when no prefix matches
(`classify_spec` is that ordered-table reading of the rule); in particular
a method ending in `DeactivateServices` classifies as update, not delete,
and one ending in `BatchEnableServices` classifies as update. -/
theorem claim2_operation_classifier (s : String) :
    get_operation_type s = classify_spec s
    ∧ get_operation_type "servicemanagement.googleapis.com.DeactivateServices"
        = some "update"
    ∧ get_operation_type "google.api.serviceusage.v1.ServiceUsage.BatchEnableServices"
        = some "update" := by
  refine ⟨?_, by decide, by decide⟩
  unfold get_operation_type classify_spec
  exact claim2_aux (methodSegment s)

/-- C5: for every `gce_instance` envelope whose resource name (last segment
of `protoPayload.resourceName`) starts with a reserved hidden-instance
prefix `aef-` or `aet-`, resource resolution short-circuits and returns
zero resources — no instance resource and no disk resources — without
raising an error. -/
theorem claim5_hidden_prefix (env : Json) (s : String)
    (h1 : jsearch env ["resource", "type"] = Json.str "gce_instance")
    (h2 : jsearch env ["protoPayload", "resourceName"] = Json.str s)
    (h3 : (pyStartsWith (pyLastSeg s '/') "aef-"
           || pyStartsWith (pyLastSeg s '/') "aet-") = true) :
    get_resources env = .ok [] := by
  rw [get_resources_str env _ h1, gce_chain, grGceInstance]
  simp only [Json.isStr, String.reduceBEq, reduceIte, h2, pySplitLast, ebind_ok, h3, epure]

/-- A concrete hidden-instance creation envelope (App Engine flex VM). -/
def hiddenInstanceEnv : Json := .obj
  [("resource", .obj [("type", .str "gce_instance"),
     ("labels", .obj [("zone", .str "us-central1-a"), ("project_id", .str "p1")])]),
   ("protoPayload", .obj
     [("methodName", .str "v1.compute.instances.insert"),
      ("resourceName", .str "projects/p1/zones/us-central1-a/instances/aef-default-1234"),
      ("request", .obj [("disks", .arr [.obj [("boot", .bool true),
        ("deviceName", .str "aef-disk")]])])])]

/-- Witness for C5 at `hiddenInstanceEnv`: the reserved prefix makes
extraction return zero resources even though a disk is attached. -/
theorem claim5_witness : get_resources hiddenInstanceEnv = .ok [] :=
  claim5_hidden_prefix hiddenInstanceEnv
    "projects/p1/zones/us-central1-a/instances/aef-default-1234" rfl rfl (by decide)

theorem truthy_str (t : String) : truthy (Json.str t) = (t != "") := rfl

theorem diskNamePy_cases (n : String) (disk : Json) :
    diskNamePy n disk
      = (if truthy (jsearch disk ["initializeParams", "diskName"]) then
           jsearch disk ["initializeParams", "diskName"]
         else if truthy (jsearch disk ["boot"]) && !(n == "") then
           Json.str n
         else jsearch disk ["deviceName"]) := by
  unfold diskNamePy pyOr pyAnd
  by_cases hdn : truthy (jsearch disk ["initializeParams", "diskName"]) = true
  · simp [hdn]
  · by_cases hb : truthy (jsearch disk ["boot"]) = true
    · by_cases hn : (n == "") = true
      · simp [hdn, hb, hn, truthy_str, bne]
      · simp [hdn, hb, hn, truthy_str, bne]
    · simp [hdn, hb]

theorem rget_gceDiskRD (env : Json) (n : String) (disk : Json) :
    rget (gceDiskRD env n disk) "name" = diskNamePy n disk := by
  simp [gceDiskRD, rget, List.lookup]

/-- Does the nested path exist in the value (key present at every step)?
Used to state claim C3 the way it is worded (`diskName if present`). -/
def hasPath : Json → List String → Bool
  | _, [] => true
  | .obj fs, k :: ks =>
    (match fs.lookup k with
     | some v => hasPath v ks
     | none => false)
  | _, _ :: _ => false

/-- The disk-name rule exactly as claim C3 words it: the disk's
`initializeParams.diskName` if present, otherwise the parent instance's
name if the disk's boot flag is true, otherwise the disk's `deviceName`. -/
def claimDiskNameC3 (instance_name : String) (disk : Json) : Json :=
  if hasPath disk ["initializeParams", "diskName"] then
    jsearch disk ["initializeParams", "diskName"]
  else if pyIsTrue (jsearch disk ["boot"]) then Json.str instance_name
  else jsearch disk ["deviceName"]

/-- A boot disk whose `initializeParams.diskName` is present but empty. -/
def cexDisk : Json := .obj
  [("initializeParams", .obj [("diskName", .str "")]),
   ("boot", .bool true), ("deviceName", .str "disk-dev")]

/-- Instance-creation envelope whose only disk is `cexDisk`. -/
def emptyDiskNameEnv : Json := .obj
  [("resource", .obj [("type", .str "gce_instance"),
     ("labels", .obj [("zone", .str "us-central1-a"), ("project_id", .str "p1")])]),
   ("protoPayload", .obj
     [("methodName", .str "v1.compute.instances.insert"),
      ("resourceName", .str "projects/p1/zones/us-central1-a/instances/test-instance"),
      ("request", .obj [("disks", .arr [cexDisk])])])]

/-- C3 counterexample: on `emptyDiskNameEnv` the disk carries an explicit
(present) `initializeParams.diskName` equal to `""`, so the claim's rule
("diskName if present") names the disk `""`; the code's truthiness
fallback instead names it after the instance, `"test-instance"`.  The
claim as stated is therefore false on this envelope. -/
theorem claim3_counterexample :
    get_resources emptyDiskNameEnv
      = .ok [gceInstanceRD emptyDiskNameEnv "test-instance",
             gceDiskRD emptyDiskNameEnv "test-instance" cexDisk]
    ∧ rget (gceDiskRD emptyDiskNameEnv "test-instance" cexDisk) "name"
        = Json.str "test-instance"
    ∧ hasPath cexDisk ["initializeParams", "diskName"] = true
    ∧ claimDiskNameC3 "test-instance" cexDisk = Json.str ""
    ∧ Json.str "test-instance" ≠ Json.str "" :=
  ⟨rfl, rfl, rfl, rfl, by simp⟩

/-- C3 (amended): for every `gce_instance` instance-creation envelope whose
instance name carries no reserved hidden prefix, extraction yields one Disk
resource per disk object in `protoPayload.request.disks` (zero disks —
including an absent disks field — yield no Disk resources), and each
disk's name follows the three-way fallback in this order, under Python
truthiness: `initializeParams.diskName` if present and non-empty;
otherwise the parent instance's name if the disk's boot field is truthy
and the instance name is non-empty; otherwise the disk's `deviceName`. -/
theorem claim3_disk_name_fallback (env : Json) (s : String)
    (h1 : jsearch env ["resource", "type"] = Json.str "gce_instance")
    (h2 : jsearch env ["protoPayload", "resourceName"] = Json.str s)
    (h3 : pyStartsWith (pyLastSeg s '/') "aef-" = false)
    (h4 : pyStartsWith (pyLastSeg s '/') "aet-" = false) :
    get_resources env
      = .ok (gceInstanceRD env (pyLastSeg s '/')
             :: (pyList (jsearch env ["protoPayload", "request", "disks"])).map
                  (fun disk => gceDiskRD env (pyLastSeg s '/') disk))
    ∧ (∀ disk, rget (gceDiskRD env (pyLastSeg s '/') disk) "name"
        = (if truthy (jsearch disk ["initializeParams", "diskName"]) then
             jsearch disk ["initializeParams", "diskName"]
           else if truthy (jsearch disk ["boot"]) && !(pyLastSeg s '/' == "") then
             Json.str (pyLastSeg s '/')
           else jsearch disk ["deviceName"]))
    ∧ (jsearch env ["protoPayload", "request", "disks"] = Json.null →
        get_resources env = .ok [gceInstanceRD env (pyLastSeg s '/')]) := by
  have main : get_resources env
      = .ok (gceInstanceRD env (pyLastSeg s '/')
             :: (pyList (jsearch env ["protoPayload", "request", "disks"])).map
                  (fun disk => gceDiskRD env (pyLastSeg s '/') disk)) := by
    rw [get_resources_str env _ h1, gce_chain, grGceInstance]
    simp only [Json.isStr, String.reduceBEq, reduceIte, h2, pySplitLast, ebind_ok,
      h3, h4, Bool.or_self, Bool.false_eq_true, if_false, epure]
  refine ⟨main, ?_, ?_⟩
  · intro disk
    rw [rget_gceDiskRD, diskNamePy_cases]
  · intro h5
    rw [main, h5]
    rfl

/-- Instance-creation envelope with a named boot disk and a data disk that
falls back to its device name. -/
def twoDiskEnv : Json := .obj
  [("resource", .obj [("type", .str "gce_instance"),
     ("labels", .obj [("zone", .str "us-east1-b"), ("project_id", .str "p2")])]),
   ("protoPayload", .obj
     [("methodName", .str "v1.compute.instances.insert"),
      ("resourceName", .str "projects/p2/zones/us-east1-b/instances/demo"),
      ("request", .obj [("disks", .arr
        [.obj [("boot", .bool true), ("deviceName", .str "persistent-disk-0")],
         .obj [("boot", .bool false), ("deviceName", .str "data-disk"),
               ("initializeParams", .obj [("diskName", .str "disk2name")])]])])])]

/-- Witness for C3 at `twoDiskEnv`: one instance plus one Disk resource per
listed disk. -/
theorem claim3_witness :
    get_resources twoDiskEnv
      = .ok (gceInstanceRD twoDiskEnv "demo"
             :: (pyList (jsearch twoDiskEnv ["protoPayload", "request", "disks"])).map
                  (fun disk => gceDiskRD twoDiskEnv "demo" disk)) :=
  (claim3_disk_name_fallback twoDiskEnv "projects/p2/zones/us-east1-b/instances/demo"
    rfl rfl (by decide) (by decide)).1

/-- C6 (amended): for every `cloudsql_database` envelope whose `methodName`
starts with `cloudsql.instances` and which carries a string
`resource.labels.database_id`, the extracted instance name is obtained by
the fixed fallback order — the last colon-separated segment of
`resource.labels.database_id` if non-empty, else
`protoPayload.request.body.name` if truthy, else
`protoPayload.request.resource.instanceName.instanceId` — so the fallback
fires when the primary path is present but yields an empty segment.  (When
`resource.labels.database_id` is absent from the envelope altogether, the
code does not fall back: it raises; see the counterexample.) -/
theorem claim6_cloudsql_fallback (env : Json) (m dbid : String)
    (h1 : jsearch env ["resource", "type"] = Json.str "cloudsql_database")
    (h2 : jsearch env ["protoPayload", "methodName"] = Json.str m)
    (h3 : pyStartsWith m "cloudsql.instances" = true)
    (h4 : jsearch env ["resource", "labels", "database_id"] = Json.str dbid) :
    get_resources env = .ok [cloudsqlRD env (pyLastSeg dbid ':')]
    ∧ rget (cloudsqlRD env (pyLastSeg dbid ':')) "name"
        = (if !(pyLastSeg dbid ':' == "") then Json.str (pyLastSeg dbid ':')
           else if truthy (jsearch env ["protoPayload", "request", "body", "name"]) then
             jsearch env ["protoPayload", "request", "body", "name"]
           else jsearch env ["protoPayload", "request", "resource",
                             "instanceName", "instanceId"]) := by
  constructor
  · rw [get_resources_str env _ h1, grCloudsql]
    simp only [Json.isStr, String.reduceBEq, reduceIte, pAndE, h2, pyStartsWithAny,
      List.any, Bool.or_false, h3, ebind_ok, h4, pySplitLast, epure]
  · simp only [cloudsqlRD, rget, List.lookup, String.reduceBEq, reduceIte, pyOr,
      truthy_str, bne]

/-- A CloudSQL creation log that carries the instance id only in
`resource.labels.database_id`. -/
def cloudsqlLabelEnv : Json := .obj
  [("resource", .obj [("type", .str "cloudsql_database"),
     ("labels", .obj [("database_id", .str "p1:test-instance"),
       ("region", .str "us-central1"), ("project_id", .str "p1")])]),
   ("protoPayload", .obj [("methodName", .str "cloudsql.instances.create")])]

/-- Witness for C6 at `cloudsqlLabelEnv`: the primary path wins when its
last colon-segment is non-empty. -/
theorem claim6_witness :
    get_resources cloudsqlLabelEnv = .ok [cloudsqlRD cloudsqlLabelEnv "test-instance"] :=
  (claim6_cloudsql_fallback cloudsqlLabelEnv "cloudsql.instances.create"
    "p1:test-instance" rfl rfl (by decide) rfl).1

/-- A CloudSQL creation log with no `resource.labels.database_id` at all,
but with the instance name available at the first fallback path. -/
def cloudsqlNoLabelEnv : Json := .obj
  [("resource", .obj [("type", .str "cloudsql_database"),
     ("labels", .obj [("region", .str "us-central1"), ("project_id", .str "p1")])]),
   ("protoPayload", .obj
     [("methodName", .str "cloudsql.instances.create"),
      ("request", .obj [("body", .obj [("name", .str "test-instance")])])])]

/-- C6 counterexample: on `cloudsqlNoLabelEnv` the primary path
`resource.labels.database_id` is absent while the first fallback path
holds a truthy name, yet extraction raises (`None.split(":")` →
`AttributeError`) instead of succeeding through the fallback — refuting
the claim's "the fallback succeeding (not erroring) also when the primary
path is absent from the envelope". -/
theorem claim6_counterexample :
    jsearch cloudsqlNoLabelEnv ["resource", "labels", "database_id"] = Json.null
    ∧ truthy (jsearch cloudsqlNoLabelEnv ["protoPayload", "request", "body", "name"]) = true
    ∧ get_resources cloudsqlNoLabelEnv = .error .attributeError :=
  ⟨rfl, rfl, rfl⟩

/-- Acceptance condition exactly as claim C4 words it: the payload's
declared type equals the audit-log protocol type AND the last
slash-separated segment of `logName` starts with the audit-log namespace
prefix (no `logName` means the condition fails). -/
def claimAccepts (fs : List (String × Json)) : Bool :=
  (jsearch (Json.obj fs) ["protoPayload", "@type"]).isStr
      "type.googleapis.com/google.cloud.audit.AuditLog"
  && (match fs.lookup "logName" with
      | some (Json.str s) => pyStartsWith (pyLastSeg s '/') "cloudaudit.googleapis.com"
      | _ => false)

theorem is_audit_logE_char (fs : List (String × Json))
    (h : fs.lookup "logName" = none ∨ ∃ s, fs.lookup "logName" = some (Json.str s)) :
    is_audit_logE (Json.obj fs) = .ok (claimAccepts fs) := by
  have hemp : pyStartsWith (pyLastSeg "" '/') "cloudaudit.googleapis.com" = false := by
    decide
  rcases h with h | ⟨s, h⟩
  · unfold is_audit_logE pyDictGetD claimAccepts
    simp only [h, ebind_ok, pySplitLast, epure, hemp, Bool.and_false]
  · unfold is_audit_logE pyDictGetD claimAccepts
    simp only [h, ebind_ok, pySplitLast, epure]

/-- C4: extraction accepts an envelope (does not raise the
not-an-audit-log error) iff the payload's declared `@type` equals the
audit-log protocol type AND the last slash-separated segment of `logName`
starts with the audit-log namespace prefix (`claimAccepts`); every
envelope failing either condition gets the not-an-audit-log error, so no
resource extraction happens for it; in particular the empty object raises
this error.  Quantified over envelopes whose `logName`, if present, is a
string (per the external-interface contract; a non-string `logName`
raises a different error inside validation itself). -/
theorem claim4_envelope_validation (fs : List (String × Json))
    (h : fs.lookup "logName" = none ∨ ∃ s, fs.lookup "logName" = some (Json.str s)) :
    (extract (Json.obj fs) = .error .notAnAuditLog ↔ claimAccepts fs = false)
    ∧ extract (Json.obj []) = .error .notAnAuditLog := by
  refine ⟨?_, rfl⟩
  have hA := is_audit_logE_char fs h
  unfold extract
  rw [hA]
  by_cases hc : claimAccepts fs = true
  · simp only [hc, Bool.not_true, Bool.false_eq_true, if_false]
    cases hm : get_metadata (Json.obj fs) with
    | error e => simp [hc]
    | ok md =>
      cases hr : get_resources (Json.obj fs) with
      | error e => simp [hc]
      | ok rs => simp [hc]
  · have hc' : claimAccepts fs = false := by
      revert hc; cases claimAccepts fs <;> simp
    simp [hc']

/-- Witness for C4 at the empty envelope: the hypothesis (no `logName`)
holds trivially and extraction raises the not-an-audit-log error. -/
theorem claim4_witness : extract (Json.obj []) = .error .notAnAuditLog :=
  (claim4_envelope_validation [] (Or.inl rfl)).2

/-- C10: envelope validation is not the only way extraction can fail.  For
an envelope that passes the audit-log check, `extract` additionally needs
a top-level `timestamp` (fed to `dateutil.parser.parse`, which raises a
`TypeError` on `None`) and a string `protoPayload.methodName` (operation
classification calls `.split` on it, raising `AttributeError` on `None`);
with either missing, `extract` raises the corresponding exception instead
of returning resources or the validation error. -/
theorem claim10_extract_requires_fields (fs : List (String × Json))
    (hvalid : is_audit_logE (Json.obj fs) = .ok true) :
    (fs.lookup "timestamp" = none → extract (Json.obj fs) = .error (.py .typeError))
    ∧ (∀ ts, fs.lookup "timestamp" = some (Json.str ts) →
        jsearch (Json.obj fs) ["protoPayload", "methodName"] = Json.null →
        extract (Json.obj fs) = .error (.py .attributeError)) := by
  constructor
  · intro hts
    have hm : get_metadata (Json.obj fs) = .error .typeError := by
      unfold get_metadata pyDictGetD
      simp only [hts, ebind_ok, dtParse, ebind_err]
    unfold extract
    rw [hvalid]
    simp only [Bool.not_true, Bool.false_eq_true, if_false, hm]
  · intro ts hts hmn
    have hm : get_metadata (Json.obj fs) = .error .attributeError := by
      unfold get_metadata pyDictGetD get_operation_typeE
      simp only [hts, hmn, ebind_ok, dtParse, ebind_err]
    unfold extract
    rw [hvalid]
    simp only [Bool.not_true, Bool.false_eq_true, if_false, hm]

/-- A well-formed audit-log envelope with no top-level `timestamp`. -/
def noTimestampEnvFs : List (String × Json) :=
  [("protoPayload", .obj
     [("@type", .str "type.googleapis.com/google.cloud.audit.AuditLog"),
      ("methodName", .str "storage.buckets.update")]),
   ("logName", .str "projects/p1/logs/cloudaudit.googleapis.com%2Factivity"),
   ("insertId", .str "abc123")]

/-- Witness for C10 at `noTimestampEnvFs`: validation passes, yet extract
raises the timestamp `TypeError`. -/
theorem claim10_witness :
    extract (Json.obj noTimestampEnvFs) = .error (.py .typeError) :=
  (claim10_extract_requires_fields noTimestampEnvFs rfl).1 rfl

/-- C1: for every resource, `PythonPolicyEngine.evaluate` returns one
Evaluation per discovered policy whose `applies_to` contains the
resource's type and whose evaluation protocol completes without raising;
the engine itself is a total function (no policy exception propagates),
and each policy's contribution is local: (i) splicing a policy into the
discovered list only inserts that policy's own contribution between the
others' results, so a faulty policy never disturbs its neighbours;
(ii) a policy whose code raises contributes nothing; (iii) a policy whose
`should_evaluate_policy` returns a falsy value is skipped silently;
(iv) an applicable policy whose protocol completes contributes exactly its
Evaluation. -/
theorem claim1_engine_evaluate_isolation (ps₁ ps₂ : List (String × PolicyCls))
    (nm : String) (cls : PolicyCls) (r : PyResource) :
    engineEvaluate (ps₁ ++ (nm, cls) :: ps₂) r
      = engineEvaluate ps₁ r ++ policyContribution r nm cls ++ engineEvaluate ps₂ r
    ∧ (∀ e, evalPolicy r nm cls = .error e → policyContribution r nm cls = [])
    ∧ (∀ f v, cls.should_evaluate_policy = some f → f r = .ok v → truthy v = false →
        policyContribution r nm cls = [])
    ∧ (∀ ev, cls.applies_to.contains r.rtype = true →
        evalPolicy r nm cls = .ok (some ev) →
        policyContribution r nm cls = [ev]) := by
  refine ⟨?_, ?_, ?_, ?_⟩
  · unfold engineEvaluate policyContribution
    rw [List.filter_append, List.filter_cons]
    by_cases hap : r.rtype ∈ cls.applies_to
    · cases hev : evalPolicy r nm cls with
      | error e => simp [hap, hev, List.filterMap_append]
      | ok o => cases o <;> simp [hap, hev, List.filterMap_append]
    · simp [hap, List.filterMap_append]
  · intro e he
    simp [policyContribution, he]
  · intro f v hf hv htr
    have hskip : evalPolicy r nm cls = .ok none := by
      unfold evalPolicy
      simp only [hf, hv, ebind_ok, epure, htr, Bool.not_false, if_true]
    simp [policyContribution, hskip]
  · intro ev hap hev
    have hap2 : r.rtype ∈ cls.applies_to := by simpa using hap
    simp [policyContribution, hap2, hev]

/-- The resource used by the C1 witness. -/
def resW : PyResource := ⟨"test.googleapis.com/Thing"⟩

/-- A well-behaved policy for the C1 witness. -/
def goodPolicyW : PolicyCls :=
  { applies_to := ["test.googleapis.com/Thing"],
    should_evaluate_policy := none,
    evaluate := some (fun _ => .ok (.result ⟨true, false, [], []⟩)),
    compliant := none, excluded := none, remediate := none }

/-- A faulty policy (its `evaluate` raises) for the C1 witness. -/
def badPolicyW : PolicyCls :=
  { applies_to := ["test.googleapis.com/Thing"],
    should_evaluate_policy := none,
    evaluate := some (fun _ => .error .valueError),
    compliant := none, excluded := none, remediate := none }

/-- Witness for C1: with a good and a faulty policy loaded, evaluation
returns exactly the good policy's Evaluation and drops the faulty one. -/
theorem claim1_witness :
    engineEvaluate [("good", goodPolicyW), ("bad", badPolicyW)] resW
      = [⟨resW, "good", true, false, [], []⟩] := by
  have h := (claim1_engine_evaluate_isolation [("good", goodPolicyW)] []
    "bad" badPolicyW resW).1
  exact h.trans (by rfl)

/-- C7: `PythonPolicyEngine.remediate` raises the unknown-policy error (the
`KeyError` of the policy-dict subscript, the spec's `UnknownPolicyError`)
when the id is not among the discovered policies, and otherwise invokes
that policy's `remediate`, returning exactly its outcome — any exception
the remediation raises propagates to the caller with no suppression,
unlike bulk evaluation. -/
theorem claim7_remediate (ps : List (String × PolicyCls)) (r : PyResource)
    (pid : String) :
    (ps.lookup pid = none → engineRemediate ps r pid = .error (.keyError pid))
    ∧ (∀ cls f, ps.lookup pid = some cls → cls.remediate = some f →
        engineRemediate ps r pid = f r) := by
  constructor
  · intro h
    unfold engineRemediate
    rw [h]
  · intro cls f h hf
    unfold engineRemediate
    rw [h]
    simp only [hf]

/-- The resource used by the C7 witness. -/
def res7W : PyResource := ⟨"test.googleapis.com/Widget"⟩

/-- A policy whose remediation raises, for the C7 witness. -/
def remPolicyW : PolicyCls :=
  { applies_to := ["test.googleapis.com/Widget"],
    should_evaluate_policy := none, evaluate := none,
    compliant := none, excluded := none,
    remediate := some (fun _ => .error .typeError) }

/-- Witness for C7: an unknown id surfaces the lookup error; a known id
runs the remediation and its exception propagates. -/
theorem claim7_witness :
    engineRemediate [("p", remPolicyW)] res7W "nope" = .error (.keyError "nope")
    ∧ engineRemediate [("p", remPolicyW)] res7W "p" = .error .typeError :=
  ⟨(claim7_remediate [("p", remPolicyW)] res7W "nope").1 rfl,
   (claim7_remediate [("p", remPolicyW)] res7W "p").2 remPolicyW
     (fun _ => .error .typeError) rfl rfl⟩

theorem splitChOn_ne_nil (sep : Char) (l : List Char) : splitChOn sep l ≠ [] := by
  induction l with
  | nil => simp [splitChOn]
  | cons c cs ih =>
    unfold splitChOn
    cases h : splitChOn sep cs with
    | nil => simp
    | cons g gs =>
      dsimp only
      split <;> simp

theorem joinCh_cons (c : Char) (g : List Char) (gs : List (List Char)) :
    joinCh ((c :: g) :: gs) = c :: joinCh (g :: gs) := by
  cases gs <;> rfl

theorem joinCh_splitChOn (l : List Char) : joinCh (splitChOn '/' l) = l := by
  induction l with
  | nil => rfl
  | cons c cs ih =>
    unfold splitChOn
    cases h : splitChOn '/' cs with
    | nil => exact absurd h (splitChOn_ne_nil _ _)
    | cons g gs =>
      rw [h] at ih
      dsimp only
      by_cases hc : c = '/'
      · subst hc
        rw [if_pos rfl]
        show joinCh ([] :: g :: gs) = '/' :: cs
        simpa [joinCh] using ih
      · rw [if_neg hc, joinCh_cons, ih]

theorem matchTemplate_render (ts : List TSeg) :
    ∀ ss vs, matchTemplate ts ss = some vs → renderSegs ts vs = ss := by
  induction ts with
  | nil =>
    intro ss vs h
    cases ss with
    | nil =>
      simp only [matchTemplate, Option.some.injEq] at h
      subst h
      rfl
    | cons s ss2 => simp [matchTemplate] at h
  | cons t ts ih =>
    intro ss vs h
    cases t with
    | lit lstr =>
      cases ss with
      | nil => simp [matchTemplate] at h
      | cons s ss2 =>
        unfold matchTemplate at h
        by_cases hs : s = lstr.data
        · rw [if_pos hs] at h
          unfold renderSegs
          rw [ih ss2 vs h, hs]
        · rw [if_neg hs] at h
          exact absurd h (by simp)
    | fieldSeg fn =>
      cases ss with
      | nil => simp [matchTemplate] at h
      | cons s ss2 =>
        unfold matchTemplate at h
        rcases Option.map_eq_some'.mp h with ⟨vs2, hm, hv⟩
        subst hv
        unfold renderSegs
        rw [ih ss2 vs2 hm]

/-- C8: for every registered resource type, constructing a Resource from an
asset-inventory (fully-qualified name, resource type) pair and then asking
for its fully-qualified name returns the original name bit-for-bit
(`from_cai_data` followed by `full_resource_name` is the identity on every
name it accepts). -/
theorem claim8_cai_roundtrip (name asset_type : String) (r : CaiResource)
    (h : from_cai_data name asset_type = .ok r) :
    full_resource_name r = name := by
  unfold from_cai_data at h
  cases hfind : caiRegistry.find? (fun d => d.asset_type == asset_type) with
  | none =>
    rw [hfind] at h
    exact absurd h (by simp)
  | some d =>
    rw [hfind] at h
    dsimp only at h
    cases hp : parseCai d name with
    | none =>
      rw [hp] at h
      exact absurd h (by simp)
    | some r2 =>
      rw [hp] at h
      have hr : r2 = r := by
        simpa using h
      subst hr
      unfold parseCai at hp
      split at hp
      case h_2 => exact absurd hp (by simp)
      case h_1 heq =>
        rename_i svc rest
        by_cases hs : svc = d.service.data
        · rw [if_pos hs] at hp
          rcases Option.map_eq_some'.mp hp with ⟨vs, hm, hv⟩
          have hv2 : r2.descriptor = d ∧ r2.vals = vs := by
            cases hv
            exact ⟨rfl, rfl⟩
          unfold full_resource_name
          rw [hv2.1, hv2.2, matchTemplate_render d.template rest vs hm, ← hs, ← heq,
            joinCh_splitChOn]
        · rw [if_neg hs] at hp
          exact absurd hp (by simp)

/-- The resource parsed by the C8 witness: a compute instance from its
asset-inventory name. -/
def caiWitnessRes : CaiResource :=
  ⟨⟨"compute.googleapis.com/Instance", "compute.googleapis.com",
    [.lit "projects", .fieldSeg "project_id", .lit "zones", .fieldSeg "location",
     .lit "instances", .fieldSeg "name"]⟩,
   ["test-project".data, "us-central1-a".data, "test-resource".data]⟩

/-- Witness for C8 at the compute-instance fixture name from
`test_resources_cai.py`. -/
theorem claim8_witness :
    full_resource_name caiWitnessRes
      = "//compute.googleapis.com/projects/test-project/zones/us-central1-a/instances/test-resource" :=
  claim8_cai_roundtrip
    "//compute.googleapis.com/projects/test-project/zones/us-central1-a/instances/test-resource"
    "compute.googleapis.com/Instance" caiWitnessRes (by rfl)

/-- C9: the lazy remote fetch behind `data()` / `to_dict()` swallows any
transport or decode error (HTTP 401, HTTP 404, malformed JSON body) on
first access — the call returns (totally, no exception in the model) and
degrades to an empty mapping — and the identity-only
`full_resource_name()` of the same Resource is unaffected by the failed
fetch. -/
theorem claim9_data_fetch_swallows (r : LazyResource) (remote : FetchOutcome)
    (hc : r.rcache = none)
    (he : remote = .httpError 401 ∨ remote = .httpError 404
          ∨ remote = .malformedBody) :
    (to_dict r remote).1 = []
    ∧ full_resource_name (to_dict r remote).2.identity
        = full_resource_name r.identity := by
  unfold to_dict
  rw [hc]
  rcases he with h | h | h <;> subst h <;> exact ⟨rfl, rfl⟩

/-- A freshly constructed bucket resource with no cached data, for the C9
witness. -/
def lazyBucketW : LazyResource :=
  ⟨⟨⟨"storage.googleapis.com/Bucket", "storage.googleapis.com", [.fieldSeg "name"]⟩,
    ["test-bucket".data]⟩, none⟩

/-- Witness for C9: a 401 response yields an empty mapping and leaves the
fully-qualified name intact. -/
theorem claim9_witness :
    (to_dict lazyBucketW (.httpError 401)).1 = []
    ∧ full_resource_name (to_dict lazyBucketW (.httpError 401)).2.identity
        = full_resource_name lazyBucketW.identity :=
  claim9_data_fetch_swallows lazyBucketW (.httpError 401) rfl (Or.inl rfl)
